import Mathlib

/-!
Verification of the svox2 training driver `opt/opt.py`.

Shallow embedding: tensors are (nested) lists of rationals, modelling the
script's float32 arithmetic exactly; the external CUDA renderer
(`grid.volume_render`) and the libm routines the script uses
(`math.log10`, `np.tan`, the square root inside `torch.norm`) are abstract
function parameters, since their implementations live outside this
repository. All line numbers refer to `opt/opt.py`.
-/

namespace Svox2Opt

/-- The sparse-grid state visible to `opt.py`: the link array `grid.links`,
the coefficient tensor `grid.data.data` (one row per voxel; channel 0 is the
density sigma, channels 1.. are the spherical-harmonic color coefficients),
and the gradient tensor `grid.data.grad`, which is present only between
`mse.backward()` and `del grid.data.grad`. -/
structure Grid where
  links : List ℤ
  data : List (List ℚ)
  grad : Option (List (List ℚ))
deriving DecidableEq

/-- Line 248, `grid.data.grad[..., 1:] *= args.lr_sh`, on one voxel row. -/
def scaleShChannels (lr_sh : ℚ) (row : List ℚ) : List ℚ :=
  match row with
  | [] => []
  | c0 :: sh => c0 :: sh.map (fun x => x * lr_sh)

/-- Line 249, `grid.data.grad[..., :1] *= args.lr_sigma`, on one voxel
row. -/
def scaleSigmaChannel (lr_sigma : ℚ) (row : List ℚ) : List ℚ :=
  match row with
  | [] => []
  | c0 :: sh => c0 * lr_sigma :: sh

/-- The manual SGD update of `train_step` (lines 247-251): scale the
gradient's SH channels by `lr_sh` and its sigma channel by `lr_sigma`,
subtract the scaled gradient from the coefficient tensor
(`grid.data.data -= grid.data.grad`), then delete the gradient. -/
def sgd_step (lr_sigma lr_sh : ℚ) (g : Grid) : Grid :=
  match g.grad with
  | none => g
  | some grad0 =>
    let grad1 := grad0.map (scaleShChannels lr_sh)
    let grad2 := grad1.map (scaleSigmaChannel lr_sigma)
    { g with
      data := List.zipWith (fun drow grow => List.zipWith (fun a b => a - b) drow grow)
                g.data grad2,
      grad := none }

/-- Example grid used by the concrete witnesses. -/
def exGrid : Grid :=
  { links := [0, 1], data := [[1, 2, 3], [4, 5, 6]],
    grad := some [[10, 20, 30], [40, 50, 60]] }

/-- One RGBA pixel as returned by `imageio.imread` (raw 0..255 channel
values before scaling). -/
structure RGBA where
  r : ℚ
  g : ℚ
  b : ℚ
  a : ℚ
deriving DecidableEq

/-- One stored ground-truth RGB pixel. -/
structure RGB where
  r : ℚ
  g : ℚ
  b : ℚ
deriving DecidableEq

/-- Line 78, `im_gt = imageio.imread(fpath).astype(np.float32) / 255.0`, on
one pixel. -/
def scalePixel (p : RGBA) : RGBA :=
  ⟨p.r / 255, p.g / 255, p.b / 255, p.a / 255⟩

/-- Line 79, `im_gt = im_gt[..., :3] * im_gt[..., 3:] + (1.0 - im_gt[..., 3:])`,
on one pixel. -/
def compositeWhite (p : RGBA) : RGB :=
  ⟨p.r * p.a + (1 - p.a), p.g * p.a + (1 - p.a), p.b * p.a + (1 - p.a)⟩

/-- Lines 78-79 on one pixel: scale to [0,1], then composite onto white. -/
def loadPixel (p : RGBA) : RGB :=
  compositeWhite (scalePixel p)

/-- Lines 78-79 applied to a whole image. -/
def loadImage (raw : List (List RGBA)) : List (List RGB) :=
  raw.map (fun row => row.map loadPixel)

/-- The `Rays` NamedTuple of opt.py (lines 45-48), polymorphic in the entry
type (each field is a tensor indexed by ray; for the flattened training rays
an entry is one 3-vector row). -/
structure Rays (α : Type) where
  origins : List α
  dirs : List α
  gt : List α
deriving DecidableEq

/-- Fancy indexing `t[perm]` of a tensor by an index tensor, torch
semantics: row `k` of the result is row `perm[k]` of `t`. -/
def tensorIndex {α : Type} [Inhabited α] (t : List α) (perm : List ℕ) : List α :=
  perm.map (fun i => t.getD i default)

/-- Method `Dataset.shuffle_rays` (lines 112-121): when the split is
`"train"`, index all three ray tensors by `perm = torch.randperm(n)` (the
permutation drawn by the external RNG is passed in as an index list);
otherwise do nothing. -/
def shuffle_rays {α : Type} [Inhabited α] (split : String) (perm : List ℕ)
    (r : Rays α) : Rays α :=
  if split = "train" then
    { origins := tensorIndex r.origins perm
      dirs := tensorIndex r.dirs perm
      gt := tensorIndex r.gt perm }
  else r

/-- The list of (origin, direction, ground-truth) triples of a ray set. -/
def zip3 {α : Type} (r : Rays α) : List (α × α × α) :=
  r.origins.zip (r.dirs.zip r.gt)

/-- Python `range(start, stop, step)` for a positive step (used at line 215
as `range(0, epoch_size, args.batch_size)`, at line 183 as
`range(0, im_size, args.eval_batch_size)` and at line 180 as
`range(0, dset_test.n_images, img_save_interval)`). A zero step raises
`ValueError` in Python; we return `[]` for it. -/
def pythonRange (start stop step : ℕ) : List ℕ :=
  if step = 0 then [] else List.range' start ((stop - start + step - 1) / step) step

/-- Line 162: `batches_per_epoch = (epoch_size-1)//args.batch_size+1`. -/
def batches_per_epoch (epoch_size batch_size : ℕ) : ℕ :=
  (epoch_size - 1) / batch_size + 1

/-- The ray indices of the training batch starting at `batch_begin`
(lines 219-222): `batch_end = min(batch_begin+args.batch_size, epoch_size)`
and the batch is the half-open index range `[batch_begin, batch_end)`. -/
def batchIndices (epoch_size batch_size batch_begin : ℕ) : List ℕ :=
  List.range' batch_begin (min (batch_begin + batch_size) epoch_size - batch_begin) 1

/-- All training batches of one epoch (line 215): one batch per
`batch_begin in range(0, epoch_size, args.batch_size)`. -/
def epochBatches (epoch_size batch_size : ℕ) : List (List ℕ) :=
  (pythonRange 0 epoch_size batch_size).map (batchIndices epoch_size batch_size)

/-- The global steps attached to the summaries emitted by one `eval_step`,
in program order (lines 170-209): `gstep_id = epoch_id * batches_per_epoch`
(line 178), one `add_image` per saved test image (line 195), then the
scalars `test/psnr` and `test/mse` (line 206) and `epoch_id` (line 208),
all carrying the same `gstep_id`. -/
def evalEmitSteps (epoch_id bpe nImagesSaved : ℕ) : List ℕ :=
  List.replicate nImagesSaved (epoch_id * bpe) ++
    [epoch_id * bpe, epoch_id * bpe, epoch_id * bpe]

/-- The global steps attached to the summaries emitted by one `train_step`,
in program order (lines 235-241): whenever `(iter_id+1) % print_every == 0`,
the scalars `mse` and `psnr` are emitted at
`gstep_id = iter_id + epoch_id * batches_per_epoch`. -/
def trainEmitSteps (epoch_id bpe print_every : ℕ) : List ℕ :=
  ((List.range bpe).filter (fun i => (i + 1) % print_every = 0)).flatMap
    (fun i => [i + epoch_id * bpe, i + epoch_id * bpe])

/-- The global steps of all summaries of one epoch, in program order:
`eval_step()` then `train_step()` (lines 210, 253). -/
def epochEmitSteps (epoch_id bpe print_every nImagesSaved : ℕ) : List ℕ :=
  evalEmitSteps epoch_id bpe nImagesSaved ++ trainEmitSteps epoch_id bpe print_every

/-- The global steps of all summaries of a run, in program order (the epoch
loop at line 168). -/
def runEmitSteps (n_epochs bpe print_every nImagesSaved : ℕ) : List ℕ :=
  (List.range n_epochs).flatMap (fun e => epochEmitSteps e bpe print_every nImagesSaved)

/-- A dense numpy array stored in a checkpoint archive: the integer link
array or the float coefficient array. -/
inductive NpArray
  | ints (a : List ℤ)
  | floats (a : List (List ℚ))
deriving DecidableEq

/-- Model of `os.path.join` of a directory and a file name. -/
def pathJoin (dir file : String) : String := dir ++ "/" ++ file

/-- Line 258: `ckpt_path = path.join(args.train_dir, f'ckpt.npy')`. The
file name contains no epoch number (the per-epoch name of line 256 is
commented out), so the path is the same for every `epoch_id`. -/
def ckpt_path (train_dir : String) (_epoch_id : ℕ) : String :=
  pathJoin train_dir "ckpt.npy"

/-- Lines 260-262: `np.savez(ckpt_path, links=grid.links.cpu().numpy(),
data=grid.data.data.cpu().numpy())`. The archive holds exactly the two
named dense arrays. -/
def saveCkpt (g : Grid) : List (String × NpArray) :=
  [("links", NpArray.ints g.links), ("data", NpArray.floats g.data)]

/-- The checkpoint writes of one run: at the end of every iteration of the
epoch loop (lines 168, 256-262) one archive is written, given the grid
state `gridAfter e` after epoch `e`'s train step. -/
def epochCkptWrites (train_dir : String) (gridAfter : ℕ → Grid) (n_epochs : ℕ) :
    List (String × List (String × NpArray)) :=
  (List.range n_epochs).map (fun e => (ckpt_path train_dir e, saveCkpt (gridAfter e)))

/-- The two dense arrays stored in a checkpoint archive. -/
structure CkptArrays where
  links : List ℤ
  data : List (List ℚ)
deriving DecidableEq

/-- The archive `np.savez` writes for given arrays (lines 260-262 write
exactly the two keyed arrays `links` and `data`). -/
def saveArrays (c : CkptArrays) : List (String × NpArray) :=
  [("links", NpArray.ints c.links), ("data", NpArray.floats c.data)]

/-- Modelled from the spec: loading a checkpoint archive. Only saving
(`np.savez`, lines 260-262) appears in this source tree; no loading code
does. Per the spec's checkpoint format — a single archive containing the
voxel connectivity/link array and the raw coefficient array as dense
numeric arrays — a load retrieves the two arrays from the archive by
name. -/
def loadCkpt (a : List (String × NpArray)) : Option CkptArrays :=
  match a.lookup "links", a.lookup "data" with
  | some (NpArray.ints l), some (NpArray.floats d) => some ⟨l, d⟩
  | _, _ => none

/-- Model of `tensor.mean().item()` of a flattened tensor. -/
def tensorMean (l : List ℚ) : ℚ := l.sum / l.length

/-- Line 192: elementwise `(rgb_gt_test - rgb_pred_test) ** 2` over
flattened channel values. -/
def sqErr (gt pred : List ℚ) : List ℚ :=
  List.zipWith (fun a b => (a - b) ^ 2) gt pred

/-- Lines 183-198 for one test image: `all_mses` collects the squared
errors of each eval batch (given here as (gt, pred) channel lists), then
`mse_num = torch.cat(all_mses).mean().item()` and
`psnr = -10.0 * math.log10(mse_num)`. `math.log10` is an external libm
routine and is passed in abstractly. -/
def evalImageMsePsnr (log10 : ℚ → ℚ) (batches : List (List ℚ × List ℚ)) : ℚ × ℚ :=
  let mse_num := tensorMean (batches.map (fun b => sqErr b.1 b.2)).flatten
  (mse_num, -10 * log10 mse_num)

/-- Line 226: `mse = F.mse_loss(rgb_gt, rgb_pred)`, the mean of the
elementwise squared error. -/
def mse_loss (gt pred : List ℚ) : ℚ := tensorMean (sqErr gt pred)

/-- Lines 226-230 for one training batch: `mse_num = mse.detach().item()`
and `psnr = -10.0 * math.log10(mse_num)`. -/
def trainBatchMsePsnr (log10 : ℚ → ℚ) (gt pred : List ℚ) : ℚ × ℚ :=
  let mse_num := mse_loss gt pred
  (mse_num, -10 * log10 mse_num)

/-- All (mse, psnr) pairs the script computes during a run: one per
evaluated test image (lines 197-198, accumulated into `stats_test` and
averaged for the `test/...` summaries) and one per training batch (lines
229-230, accumulated into `stats` and averaged for the train summaries). -/
def runMsePsnrPairs (log10 : ℚ → ℚ)
    (evalImages : List (List (List ℚ × List ℚ)))
    (trainBatches : List (List ℚ × List ℚ)) : List (ℚ × ℚ) :=
  evalImages.map (evalImageMsePsnr log10) ++
    trainBatches.map (fun b => trainBatchMsePsnr log10 b.1 b.2)

/-- A JSON value as produced by `json.load`; numbers are modelled over ℚ. -/
inductive J
  | null
  | num (q : ℚ)
  | str (s : String)
  | arr (elts : List J)
  | obj (fields : List (String × J))

/-- Python subscripting `j[key]` of a JSON value: a `KeyError` when the key
is absent, a `TypeError` when the value is not a dict. -/
def getItem (j : J) (key : String) : Except String J :=
  match j with
  | J.obj fields =>
    match fields.lookup key with
    | some v => Except.ok v
    | none => Except.error ("KeyError: " ++ key)
  | _ => Except.error ("TypeError: value is not subscriptable: " ++ key)

/-- Iterating a JSON value as a list (`for frame in j['frames']`, line 74):
a `TypeError` when it is not an array. -/
def asArr : J → Except String (List J)
  | J.arr l => Except.ok l
  | _ => Except.error "TypeError: object is not iterable"

/-- Using a JSON value as a string (the `file_path` of a frame, line 75). -/
def asStr : J → Except String String
  | J.str s => Except.ok s
  | _ => Except.error "TypeError: expected a string"

/-- Using a JSON value as a number (`camera_angle_x`, line 82). -/
def asNum : J → Except String ℚ
  | J.num q => Except.ok q
  | _ => Except.error "TypeError: expected a number"

/-- Sequencing of a fallible action over a list, stopping at the first
failure — the Python `for` loop over frames (lines 74-81), which raises out
of the loop at the first failing frame. -/
def forEachM {α β : Type} (f : α → Except String β) : List α → Except String (List β)
  | [] => Except.ok []
  | a :: l => do
    let b ← f a
    let bs ← forEachM f l
    Except.ok (b :: bs)

/-- Line 76: `torch.tensor(frame['transform_matrix'], dtype=torch.float32)`;
the conversion raises unless the JSON value is a nested numeric list. -/
def tensorOfJson (j : J) : Except String (List (List ℚ)) :=
  match j with
  | J.arr rows => forEachM (fun row =>
      match row with
      | J.arr entries => forEachM (fun entry =>
          match entry with
          | J.num q => Except.ok q
          | _ => Except.error "ValueError: could not convert value to tensor") entries
      | _ => Except.error "ValueError: could not convert value to tensor") rows
  | _ => Except.error "ValueError: could not convert value to tensor"

/-- Helper of `basename`: the characters after the last slash. -/
def basenameChars : List Char → List Char → List Char
  | [], acc => acc.reverse
  | c :: cs, acc => if c = '/' then basenameChars cs [] else basenameChars cs (c :: acc)

/-- Model of `os.path.basename` (line 75): everything after the last `/`. -/
def basename (s : String) : String := String.mk (basenameChars s.data [])

/-- The filesystem/decoder environment of the dataset loader: `readJson`
models `json.load(open(path, 'r'))` (a missing file or invalid JSON yields
the error), `readImage` models `imageio.imread(path)` (a missing image file
yields the error). -/
structure Env where
  readJson : String → Except String J
  readImage : String → Except String (List (List RGBA))

/-- The dynamically-shaped `self.rays` tensor triple (lines 105-110): for
the train split the per-image axes are flattened into one ray axis, for the
other splits the tensors keep a leading image axis. -/
inductive RaysTensor
  | flat (r : Rays (List ℚ))
  | perImage (r : Rays (List (List ℚ)))

/-- The `Dataset` object (lines 50-110). -/
structure Dataset where
  focal : ℚ
  c2w : List (List (List ℚ))
  gt : List (List (List RGB))
  n_images : ℕ
  h : ℕ
  w : ℕ
  split : String
  rays : RaysTensor

/-- Line 89: the camera position `c2w[:3, 3]` of one pose. -/
def translation3 (m : List (List ℚ)) : List ℚ :=
  (m.take 3).map (fun row => row.getD 3 0)

/-- Line 101: applying the rotation `c2w[:3, :3]` to one direction. -/
def rot3Apply (m : List (List ℚ)) (v : List ℚ) : List ℚ :=
  (m.take 3).map (fun row => (List.zipWith (fun a b => a * b) (row.take 3) v).sum)

/-- Lines 90-98: the camera-frame pixel directions. For pixel `(x, y)`,
`xx = (x - w*0.5)/focal`, `yy = (y - h*0.5)/focal`, direction
`(xx, -yy, -1)` normalized; the square root inside `torch.norm` is the
abstract `sqrt` parameter. -/
def pixelDirs (sqrt : ℚ → ℚ) (h w : ℕ) (focal : ℚ) : List (List ℚ) :=
  (List.range h).flatMap (fun y =>
    (List.range w).map (fun x =>
      let xx := ((x : ℚ) - (w : ℚ) * 0.5) / focal
      let yy := ((y : ℚ) - (h : ℚ) * 0.5) / focal
      let n := sqrt (xx ^ 2 + yy ^ 2 + 1)
      [xx / n, -yy / n, -1 / n]))

/-- Lines 75-81 for one frame: read `file_path`, build the image path from
its basename, convert `transform_matrix` to a tensor, read the image and
scale/composite it. -/
def loadFrame (env : Env) (data_path : String) (frame : J) :
    Except String (List (List ℚ) × List (List RGB)) := do
  let fp ← getItem frame "file_path" >>= asStr
  let c2w ← getItem frame "transform_matrix" >>= tensorOfJson
  let raw ← env.readImage (pathJoin data_path (basename fp ++ ".png"))
  Except.ok (c2w, loadImage raw)

/-- Method `Dataset.__init__` (lines 63-110): load the manifest
`transforms_<split>.json`, process every frame (line 74), compute the focal
length from the first image's width and `camera_angle_x` (line 82; the
`all_gt[0]` subscript raises `IndexError` on an empty frame list), and
generate the rays (lines 88-110). `tan` abstracts `np.tan` and `sqrt` the
square root inside `torch.norm`. Any failure propagates: the method
contains no `try`/`except`. -/
def datasetInit (tan sqrt : ℚ → ℚ) (env : Env) (root split : String)
    (scene_scale : ℚ) : Except String Dataset := do
  let j ← env.readJson (pathJoin root ("transforms_" ++ split ++ ".json"))
  let frames ← getItem j "frames" >>= asArr
  let pairs ← forEachM (loadFrame env (pathJoin root split)) frames
  let first ← match pairs.head? with
    | some p => Except.ok p
    | none => Except.error "IndexError: list index out of range"
  let cax ← getItem j "camera_angle_x" >>= asNum
  let h := first.2.length
  let w := (first.2.headD []).length
  let focal := 0.5 * (w : ℚ) / tan (0.5 * cax)
  let c2ws := pairs.map Prod.fst
  let gts := pairs.map Prod.snd
  let origins := c2ws.map (fun m =>
    List.replicate (h * w) ((translation3 m).map (fun t => t * scene_scale)))
  let dirs := c2ws.map (fun m => (pixelDirs sqrt h w focal).map (rot3Apply m))
  let gtFlat := gts.map (fun img => img.flatten.map (fun p => [p.r, p.g, p.b]))
  let rays := if split = "train" then
      RaysTensor.flat ⟨origins.flatten, dirs.flatten, gtFlat.flatten⟩
    else
      RaysTensor.perImage ⟨origins, dirs, gtFlat⟩
  Except.ok { focal := focal, c2w := c2ws, gt := gts, n_images := pairs.length,
              h := h, w := w, split := split, rays := rays }

/-- The dataset-loading prefix of the script (lines 148-149) followed by
the rest of the run, abstracted as `rest`: the script builds the train and
test datasets and then proceeds; nothing catches exceptions. -/
def runScript (tan sqrt : ℚ → ℚ) (env : Env) (data_dir : String)
    (rest : Dataset → Dataset → Except String Unit) : Except String Unit := do
  let dset ← datasetInit tan sqrt env data_dir "train" (1 / 1.5)
  let dset_test ← datasetInit tan sqrt env data_dir "test" (1 / 1.5)
  rest dset dset_test

/-- A rest-of-script that succeeds, used by the concrete witnesses. -/
def restNoOp : Dataset → Dataset → Except String Unit :=
  fun _ _ => Except.ok ()

/-- A frame object lacking both of its required fields. -/
def frameNoFields : J := J.obj []

/-- A frame object lacking only `transform_matrix`. -/
def frameNoMatrix : J := J.obj [("file_path", J.str "./train/r_0")]

/-- A well-formed frame object. -/
def exFrame : J :=
  J.obj [("file_path", J.str "./train/r_0"),
         ("transform_matrix", J.arr [J.arr [J.num 1]])]

/-- A well-formed one-frame manifest. -/
def goodManifest : J :=
  J.obj [("frames", J.arr [exFrame]), ("camera_angle_x", J.num 1)]

/-- An environment with no manifest file at all. -/
def envNoManifest : Env :=
  ⟨fun _ => Except.error "FileNotFoundError: transforms json",
   fun _ => Except.error "FileNotFoundError: image"⟩

/-- An environment whose manifest has a frame lacking its fields. -/
def envFrameNoFields : Env :=
  ⟨fun _ => Except.ok (J.obj [("frames", J.arr [frameNoFields])]),
   fun _ => Except.error "FileNotFoundError: image"⟩

/-- An environment with a well-formed manifest whose image file is
missing. -/
def envNoImage : Env :=
  ⟨fun _ => Except.ok goodManifest,
   fun _ => Except.error "FileNotFoundError: image"⟩

/-- An environment where the train manifest and image load fine but the
test manifest is missing. -/
def envTestMissing : Env :=
  ⟨fun p => if p = "d/transforms_train.json" then Except.ok goodManifest
            else Except.error "FileNotFoundError: transforms json",
   fun _ => Except.ok [[RGBA.mk 0 0 0 0]]⟩

/-- A summary emission of the SummaryWriter: `add_image(tag, im,
global_step, 'HWC')` or `add_scalar(tag, value, global_step)`. -/
inductive Emission
  | image (tag : String) (im : List (List ℚ)) (gstep : ℕ)
  | scalar (tag : String) (value : ℚ) (gstep : ℕ)

/-- The mutable program state the epoch loop can see: the grid (coefficient
and link arrays), the training dataset's flattened rays, the test dataset's
per-image rays and image shape, the epoch-size bookkeeping (line 161), and
the summary-writer log. -/
structure ProgState where
  grid : Grid
  dsetRays : Rays (List ℚ)
  dsetTestRays : Rays (List (List ℚ))
  testH : ℕ
  testW : ℕ
  epoch_size : ℕ
  log : List Emission

/-- Python slicing `l[b:e]` for `b ≤ e`. -/
def slice {α : Type} (l : List α) (b e : ℕ) : List α := (l.drop b).take (e - b)

/-- Formatting `f'{img_id:04d}'` of the image tag (line 195). -/
def fmt04 (n : ℕ) : String :=
  let s := toString n
  String.mk (List.replicate (4 - s.length) '0') ++ s

/-- Line 192: `(rgb_gt_test - rgb_pred_test) ** 2` over lists of RGB
3-vectors. -/
def sqErrVec (gt pred : List (List ℚ)) : List (List ℚ) :=
  List.zipWith (fun g p => List.zipWith (fun a b => (a - b) ^ 2) g p) gt pred

/-- One iteration of the image loop of `eval_step` (lines 180-201): render
the image in eval batches, emit the rendered image (when any batch was
produced) at `gstep_id`, and accumulate this image's psnr/mse into the
running statistics. The accumulator carries the program state and the local
`stats_test['psnr']`, `stats_test['mse']` and `n_images_gen`. The renderer
`grid.volume_render` is the abstract `render` parameter and `math.log10`
the abstract `log10` parameter; under `torch.no_grad()` rendering reads the
grid and writes nothing. -/
def evalImageIter (render : Grid → List (List ℚ) → List (List ℚ) → List (List ℚ))
    (log10 : ℚ → ℚ) (eval_batch_size gstep_id : ℕ)
    (acc : ProgState × ℚ × ℚ × ℕ) (img_id : ℕ) : ProgState × ℚ × ℚ × ℕ :=
  let s := acc.1
  let im_size := s.testH * s.testW
  let batches := (pythonRange 0 im_size eval_batch_size).map (fun batch_begin =>
    let batch_end := min (batch_begin + eval_batch_size) im_size
    let batch_origins := slice (s.dsetTestRays.origins.getD img_id []) batch_begin batch_end
    let batch_dirs := slice (s.dsetTestRays.dirs.getD img_id []) batch_begin batch_end
    let rgb_gt_test := slice (s.dsetTestRays.gt.getD img_id []) batch_begin batch_end
    (render s.grid batch_origins batch_dirs, rgb_gt_test))
  let all_rgbs := batches.map Prod.fst
  let all_mses := batches.map (fun b => sqErrVec b.2 b.1)
  let s1 := if all_rgbs.length ≠ 0 then
      { s with log := s.log ++
          [Emission.image ("test/image_" ++ fmt04 img_id) all_rgbs.flatten gstep_id] }
    else s
  let mse_num := tensorMean all_mses.flatten.flatten
  let psnr := -10 * log10 mse_num
  (s1, acc.2.1 + psnr, acc.2.2.1 + mse_num, acc.2.2.2 + 1)

/-- Function `eval_step` (lines 170-209): under `torch.no_grad()`, loop
over every `img_save_interval`-th test image accumulating statistics and
emitting rendered images, then emit the averaged `test/psnr` and `test/mse`
scalars and the `epoch_id` scalar, all at
`gstep_id = epoch_id * batches_per_epoch`. -/
def eval_step (render : Grid → List (List ℚ) → List (List ℚ) → List (List ℚ))
    (log10 : ℚ → ℚ) (eval_batch_size epoch_id bpe : ℕ) (s : ProgState) : ProgState :=
  let n_images := s.dsetTestRays.origins.length
  let img_save_interval := n_images / 5
  let gstep_id := epoch_id * bpe
  let res := (pythonRange 0 n_images img_save_interval).foldl
    (evalImageIter render log10 eval_batch_size gstep_id) (s, 0, 0, 0)
  let psnr_avg := res.2.1 / (res.2.2.2 : ℚ)
  let mse_avg := res.2.2.1 / (res.2.2.2 : ℚ)
  { res.1 with log := res.1.log ++
      [Emission.scalar "test/psnr" psnr_avg gstep_id,
       Emission.scalar "test/mse" mse_avg gstep_id,
       Emission.scalar "epoch_id" (epoch_id : ℚ) gstep_id] }

theorem length_scaleShChannels (lr : ℚ) (row : List ℚ) :
    (scaleShChannels lr row).length = row.length := by
  cases row <;> simp [scaleShChannels]

theorem length_scaleSigmaChannel (lr : ℚ) (row : List ℚ) :
    (scaleSigmaChannel lr row).length = row.length := by
  cases row <;> simp [scaleSigmaChannel]

theorem sub_map_mul_getD (lr : ℚ) :
    ∀ (d r : List ℚ), r.length = d.length → ∀ c, c < d.length →
      (List.zipWith (fun a b => a - b) d (r.map (fun x => x * lr))).getD c 0 =
        d.getD c 0 - lr * r.getD c 0 := by
  intro d
  induction d with
  | nil => intro r _ c hc; simp at hc
  | cons a d ih =>
    intro r hr c hc
    cases r with
    | nil => simp at hr
    | cons b r =>
      cases c with
      | zero => simp [mul_comm]
      | succ c =>
        simp only [List.map_cons, List.zipWith_cons_cons, List.getD_cons_succ]
        exact ih r (by simpa using hr) c (by simpa using hc)

theorem row_sgd_getD (lr_sigma lr_sh : ℚ) :
    ∀ (d r : List ℚ), r.length = d.length → ∀ c, c < d.length →
      (List.zipWith (fun a b => a - b) d
        (scaleSigmaChannel lr_sigma (scaleShChannels lr_sh r))).getD c 0 =
        d.getD c 0 - (if c = 0 then lr_sigma else lr_sh) * r.getD c 0 := by
  intro d r hr c hc
  cases d with
  | nil => simp at hc
  | cons a d =>
    cases r with
    | nil => simp at hr
    | cons b r =>
      cases c with
      | zero => simp [scaleShChannels, scaleSigmaChannel, mul_comm]
      | succ c =>
        simp only [scaleShChannels, scaleSigmaChannel, List.zipWith_cons_cons,
          List.getD_cons_succ, Nat.succ_ne_zero, if_neg]
        exact sub_map_mul_getD lr_sh d r (by simpa using hr) c (by simpa using hc)

/-- C1: after backprop, the manual SGD step scales the sigma-channel
gradient by `lr_sigma` and the SH-channel gradients by `lr_sh`, subtracts
the scaled gradient from the coefficient array in place, and deletes the
stored gradient. -/
theorem train_step_sgd_update (lr_sigma lr_sh : ℚ) (g : Grid) (gr : List (List ℚ))
    (hgrad : g.grad = some gr) (hlen : gr.length = g.data.length)
    (hrow : ∀ v, v < g.data.length → (gr.getD v []).length = (g.data.getD v []).length) :
    (sgd_step lr_sigma lr_sh g).grad = none ∧
    (sgd_step lr_sigma lr_sh g).data.length = g.data.length ∧
    ∀ v c, v < g.data.length → c < (g.data.getD v []).length →
      ((sgd_step lr_sigma lr_sh g).data.getD v []).getD c 0 =
        (g.data.getD v []).getD c 0 -
          (if c = 0 then lr_sigma else lr_sh) * ((gr.getD v []).getD c 0) := by
  have hstep : sgd_step lr_sigma lr_sh g =
      { g with
        data := List.zipWith (fun drow grow => List.zipWith (fun a b => a - b) drow grow)
                  g.data ((gr.map (scaleShChannels lr_sh)).map (scaleSigmaChannel lr_sigma)),
        grad := none } := by
    simp [sgd_step, hgrad]
  have hmaplen : ((gr.map (scaleShChannels lr_sh)).map (scaleSigmaChannel lr_sigma)).length
      = g.data.length := by simp [hlen]
  refine ⟨by simp [hstep], by simp [hstep, hmaplen]; omega, ?_⟩
  intro v c hv hc
  have hv' : v < ((gr.map (scaleShChannels lr_sh)).map (scaleSigmaChannel lr_sigma)).length := by
    omega
  have hvz : v < (List.zipWith
      (fun drow grow => List.zipWith (fun a b => a - b) drow grow)
      g.data ((gr.map (scaleShChannels lr_sh)).map (scaleSigmaChannel lr_sigma))).length := by
    simp [hmaplen]; omega
  have hvgr : v < gr.length := by omega
  have hget : (List.zipWith
      (fun drow grow => List.zipWith (fun a b => a - b) drow grow)
      g.data ((gr.map (scaleShChannels lr_sh)).map (scaleSigmaChannel lr_sigma))).getD v [] =
      List.zipWith (fun a b => a - b) (g.data.getD v [])
        (scaleSigmaChannel lr_sigma (scaleShChannels lr_sh (gr.getD v []))) := by
    rw [List.getD_eq_getElem _ _ hvz]
    rw [List.getElem_zipWith]
    rw [List.getD_eq_getElem _ _ hv, List.getD_eq_getElem _ _ hvgr]
    simp
  rw [hstep]
  simp only
  rw [hget]
  exact row_sgd_getD lr_sigma lr_sh (g.data.getD v []) (gr.getD v [])
    (hrow v hv) c hc

/-- Witness for C1 at a concrete grid: two voxels, three channels,
`lr_sigma = 2`, `lr_sh = 3`. -/
theorem train_step_sgd_update_witness :
    exGrid.grad = some [[10, 20, 30], [40, 50, 60]] ∧
    ((sgd_step 2 3 exGrid).grad = none ∧
     (sgd_step 2 3 exGrid).data.length = exGrid.data.length ∧
     ∀ v c, v < exGrid.data.length → c < (exGrid.data.getD v []).length →
       ((sgd_step 2 3 exGrid).data.getD v []).getD c 0 =
         (exGrid.data.getD v []).getD c 0 -
           (if c = 0 then 2 else 3) *
             (([[10, 20, 30], [40, 50, 60]] : List (List ℚ)).getD v [] |>.getD c 0)) :=
  ⟨rfl, train_step_sgd_update 2 3 exGrid [[10, 20, 30], [40, 50, 60]]
    rfl (by decide) (by decide)⟩

/-- C2: for every loaded RGBA image, the stored ground-truth RGB at each
pixel is the scaled image alpha-composited onto a white background:
`stored_rgb = rgb * alpha + (1 - alpha)` where `rgb` and `alpha` are the
channel values scaled to [0,1]. -/
theorem gt_is_composited_on_white (raw : List (List RGBA)) (i j : ℕ)
    (hi : i < raw.length) (hj : j < (raw.getD i []).length) :
    ((loadImage raw).getD i []).getD j ⟨0, 0, 0⟩ =
      let p := scalePixel ((raw.getD i []).getD j ⟨0, 0, 0, 0⟩)
      RGB.mk (p.r * p.a + (1 - p.a)) (p.g * p.a + (1 - p.a)) (p.b * p.a + (1 - p.a)) := by
  have hi' : i < (loadImage raw).length := by simpa [loadImage] using hi
  rw [List.getD_eq_getElem _ _ hi', List.getD_eq_getElem _ _ hi]
  have hj' : j < (raw[i]).length := by
    rw [List.getD_eq_getElem _ _ hi] at hj
    exact hj
  have him : (loadImage raw)[i] = (raw[i]).map loadPixel := by
    simp [loadImage]
  rw [him]
  have hjm : j < ((raw[i]).map loadPixel).length := by simpa using hj'
  rw [List.getD_eq_getElem _ _ hjm, List.getD_eq_getElem _ _ hj']
  simp [loadPixel, compositeWhite]

/-- Witness for C2 at a concrete one-pixel image. -/
theorem gt_is_composited_on_white_witness :
    0 < ([[RGBA.mk 255 0 128 255]] : List (List RGBA)).length ∧
    ((loadImage [[RGBA.mk 255 0 128 255]]).getD 0 []).getD 0 ⟨0, 0, 0⟩ =
      let p := scalePixel ((([[RGBA.mk 255 0 128 255]] : List (List RGBA)).getD 0 []).getD 0
        ⟨0, 0, 0, 0⟩)
      RGB.mk (p.r * p.a + (1 - p.a)) (p.g * p.a + (1 - p.a)) (p.b * p.a + (1 - p.a)) :=
  ⟨by decide, gt_is_composited_on_white [[RGBA.mk 255 0 128 255]] 0 0
    (by decide) (by decide)⟩

theorem map_range_getD_zip3 {α : Type} [Inhabited α] (xs ys zs : List α)
    (hy : ys.length = xs.length) (hz : zs.length = xs.length) :
    (List.range xs.length).map
        (fun i => (xs.getD i default, ys.getD i default, zs.getD i default)) =
      xs.zip (ys.zip zs) := by
  apply List.ext_getElem
  · simp [hy, hz]
  · intro i h1 h2
    have hx : i < xs.length := by simpa using h1
    have hyi : i < ys.length := by omega
    have hzi : i < zs.length := by omega
    simp only [List.getElem_map, List.getElem_range, List.getElem_zip]
    rw [List.getD_eq_getElem _ _ hx, List.getD_eq_getElem _ _ hyi,
      List.getD_eq_getElem _ _ hzi]

/-- C8: `shuffle_rays` applies one and the same permutation to origins,
directions and ground truths, so the multiset of (origin, direction, gt)
triples is preserved; and on any split other than `"train"` it leaves the
rays unchanged. -/
theorem shuffle_rays_preserves_pairing {α : Type} [Inhabited α]
    (split : String) (perm : List ℕ) (r : Rays α)
    (hperm : perm.Perm (List.range r.origins.length))
    (hd : r.dirs.length = r.origins.length)
    (hg : r.gt.length = r.origins.length) :
    (zip3 (shuffle_rays split perm r)).Perm (zip3 r) ∧
    (split ≠ "train" → shuffle_rays split perm r = r) := by
  constructor
  · by_cases hs : split = "train"
    · have hshuf : shuffle_rays split perm r =
          { origins := tensorIndex r.origins perm
            dirs := tensorIndex r.dirs perm
            gt := tensorIndex r.gt perm } := by
        simp [shuffle_rays, hs]
      rw [hshuf]
      have hz : zip3 (Rays.mk (tensorIndex r.origins perm)
          (tensorIndex r.dirs perm) (tensorIndex r.gt perm)) =
          perm.map (fun i => (r.origins.getD i default,
            r.dirs.getD i default, r.gt.getD i default)) := by
        simp only [zip3, tensorIndex]
        rw [List.zip_map', List.zip_map']
      rw [hz]
      have := hperm.map (fun i => (r.origins.getD i default,
        r.dirs.getD i default, r.gt.getD i default))
      rw [map_range_getD_zip3 r.origins r.dirs r.gt hd hg] at this
      exact this
    · simp [shuffle_rays, hs, List.Perm.refl]
  · intro hs
    simp [shuffle_rays, hs]

/-- Witness for C8: two rays over `ℕ` entries, swapped by `perm = [1, 0]`,
and an unchanged `"test"` split. -/
theorem shuffle_rays_preserves_pairing_witness :
    ([1, 0] : List ℕ).Perm (List.range (Rays.mk [10, 20] [30, 40] [50, 60]).origins.length) ∧
    ((zip3 (shuffle_rays "test" [1, 0] (Rays.mk ([10, 20] : List ℕ) [30, 40] [50, 60]))).Perm
        (zip3 (Rays.mk [10, 20] [30, 40] [50, 60])) ∧
      ("test" ≠ "train" →
        shuffle_rays "test" [1, 0] (Rays.mk ([10, 20] : List ℕ) [30, 40] [50, 60]) =
          Rays.mk [10, 20] [30, 40] [50, 60])) :=
  ⟨by decide, shuffle_rays_preserves_pairing "test" [1, 0]
    (Rays.mk [10, 20] [30, 40] [50, 60]) (by decide) (by decide) (by decide)⟩

theorem range'_eq_map_range_mul (bs : ℕ) :
    ∀ (n s : ℕ), List.range' s n bs = (List.range n).map (fun k => s + k * bs) := by
  intro n
  induction n with
  | zero => intro s; simp
  | succ n ih =>
    intro s
    rw [List.range'_succ, List.range_succ_eq_map]
    simp only [List.map_cons, Nat.zero_mul, Nat.add_zero, List.map_map]
    refine congrArg (s :: ·) ?_
    rw [ih (s + bs)]
    apply List.map_congr_left
    intro k _
    simp [Function.comp, Nat.add_mul]
    ring

theorem pythonRange_starts (es bs : ℕ) (hes : 1 ≤ es) (hbs : 1 ≤ bs) :
    pythonRange 0 es bs = (List.range (batches_per_epoch es bs)).map (fun k => k * bs) := by
  have hbs0 : bs ≠ 0 := by omega
  have hcount : (es - 0 + bs - 1) / bs = batches_per_epoch es bs := by
    have : es - 0 + bs - 1 = (es - 1) + bs := by omega
    rw [this, Nat.add_div_right _ (by omega)]
    rfl
  rw [pythonRange, if_neg hbs0, hcount, range'_eq_map_range_mul]
  simp

theorem mul_bs_lt_of_lt_bpe (es bs k : ℕ) (hes : 1 ≤ es) (_hbs : 1 ≤ bs)
    (hk : k < batches_per_epoch es bs) : k * bs < es := by
  have hk' : k ≤ (es - 1) / bs := by
    simpa [batches_per_epoch] using Nat.lt_succ_iff.mp hk
  have h1 : k * bs ≤ (es - 1) / bs * bs :=
    Nat.mul_le_mul_right bs hk'
  have h2 : (es - 1) / bs * bs ≤ es - 1 := Nat.div_mul_le_self _ _
  omega

theorem bpe_mul_ge (es bs : ℕ) (hes : 1 ≤ es) (hbs : 1 ≤ bs) :
    es ≤ batches_per_epoch es bs * bs := by
  have hdm := Nat.div_add_mod (es - 1) bs
  have hlt : (es - 1) % bs < bs := Nat.mod_lt _ (by omega)
  have : batches_per_epoch es bs * bs = (es - 1) / bs * bs + bs := by
    simp [batches_per_epoch, Nat.add_mul]
  rw [this]
  have : bs * ((es - 1) / bs) = (es - 1) / bs * bs := Nat.mul_comm _ _
  omega

theorem epochBatches_flatten_prefix (es bs : ℕ) (hes : 1 ≤ es) (hbs : 1 ≤ bs) :
    ∀ j, j ≤ batches_per_epoch es bs →
      ((List.range j).map (fun k => batchIndices es bs (k * bs))).flatten =
        List.range' 0 (min (j * bs) es) 1 := by
  intro j
  induction j with
  | zero => intro _; simp
  | succ j ih =>
    intro hj
    have hjlt : j < batches_per_epoch es bs := by omega
    have hjbs : j * bs < es := mul_bs_lt_of_lt_bpe es bs j hes hbs hjlt
    rw [List.range_succ, List.map_append, List.flatten_append,
      ih (by omega)]
    have hminj : min (j * bs) es = j * bs := by omega
    rw [hminj]
    simp only [List.map_cons, List.map_nil, List.flatten_cons, List.flatten_nil,
      List.append_nil, batchIndices]
    have harr := List.range'_append 0 (j * bs) (min (j * bs + bs) es - j * bs) 1
    simp only [Nat.one_mul, Nat.zero_add] at harr
    rw [harr]
    have : min (j * bs + bs) es - j * bs + j * bs = min ((j + 1) * bs) es := by
      have h1 : j * bs ≤ min (j * bs + bs) es := by omega
      have h2 : (j + 1) * bs = j * bs + bs := by ring
      omega
    rw [this]

/-- C9: for `epoch_size ≥ 1` and `batch_size ≥ 1` the training batches of
an epoch are the half-open ranges `[k*batch_size, min((k+1)*batch_size,
epoch_size))`; each is non-empty with at most `batch_size` indices, their
concatenation is exactly `[0, epoch_size)` (so they are pairwise disjoint
and cover every ray index exactly once), and their number is
`batches_per_epoch = (epoch_size-1)//batch_size + 1`. -/
theorem epoch_batches_partition (es bs : ℕ) (hes : 1 ≤ es) (hbs : 1 ≤ bs) :
    (epochBatches es bs).length = batches_per_epoch es bs ∧
    pythonRange 0 es bs = (List.range (batches_per_epoch es bs)).map (fun k => k * bs) ∧
    (∀ b ∈ epochBatches es bs, b ≠ [] ∧ b.length ≤ bs) ∧
    (epochBatches es bs).flatten = List.range es ∧
    List.Pairwise List.Disjoint (epochBatches es bs) := by
  have hstarts := pythonRange_starts es bs hes hbs
  have hmap : epochBatches es bs =
      (List.range (batches_per_epoch es bs)).map (fun k => batchIndices es bs (k * bs)) := by
    rw [epochBatches, hstarts, List.map_map]
    rfl
  have hflat : (epochBatches es bs).flatten = List.range es := by
    rw [hmap, epochBatches_flatten_prefix es bs hes hbs _ (le_refl _)]
    have hge := bpe_mul_ge es bs hes hbs
    have : min (batches_per_epoch es bs * bs) es = es := by omega
    rw [this, List.range_eq_range']
  refine ⟨by rw [hmap]; simp, hstarts, ?_, hflat, ?_⟩
  · intro b hb
    rw [hmap] at hb
    obtain ⟨k, hk, hbk⟩ := List.mem_map.mp hb
    have hklt : k < batches_per_epoch es bs := List.mem_range.mp hk
    have hkbs : k * bs < es := mul_bs_lt_of_lt_bpe es bs k hes hbs hklt
    have hlen : b.length = min (k * bs + bs) es - k * bs := by
      rw [← hbk, batchIndices, List.length_range']
    constructor
    · intro hnil
      rw [hnil] at hlen
      simp at hlen
      omega
    · omega
  · have hnd : (epochBatches es bs).flatten.Nodup := by
      rw [hflat]; exact List.nodup_range es
    exact (List.nodup_flatten.mp hnd).2

/-- Witness for C9 at `epoch_size = 5`, `batch_size = 2` (three batches
`[0,1] [2,3] [4]`). -/
theorem epoch_batches_partition_witness :
    (1 ≤ 5 ∧ 1 ≤ 2) ∧
    ((epochBatches 5 2).length = batches_per_epoch 5 2 ∧
     pythonRange 0 5 2 = (List.range (batches_per_epoch 5 2)).map (fun k => k * 2) ∧
     (∀ b ∈ epochBatches 5 2, b ≠ [] ∧ b.length ≤ 2) ∧
     (epochBatches 5 2).flatten = List.range 5 ∧
     List.Pairwise List.Disjoint (epochBatches 5 2)) :=
  ⟨by omega, epoch_batches_partition 5 2 (by omega) (by omega)⟩

/-- Counterexample to C3 as stated: in a run with one epoch, one batch per
epoch, `print_every = 20` and one saved test image, `eval_step` emits four
summaries (one image, three scalars) that all carry the same global step 0,
so a later emission does not carry a strictly greater step than an earlier
one. -/
theorem run_emit_steps_not_strictly_monotone :
    ¬ List.Pairwise (· < ·) (runEmitSteps 1 1 20 1) := by
  decide

theorem mem_evalEmitSteps (e bpe nI x : ℕ) (hx : x ∈ evalEmitSteps e bpe nI) :
    x = e * bpe := by
  rcases List.mem_append.mp hx with h | h
  · exact (List.mem_replicate.mp h).2
  · simpa using h

theorem mem_trainEmitSteps (e bpe pe x : ℕ) (hx : x ∈ trainEmitSteps e bpe pe) :
    ∃ i, i < bpe ∧ x = i + e * bpe := by
  rcases List.mem_flatMap.mp hx with ⟨i, hi, hxi⟩
  have hilt : i < bpe := List.mem_range.mp (List.mem_of_mem_filter hi)
  exact ⟨i, hilt, by simpa using hxi⟩

theorem mem_epochEmitSteps_bounds (e bpe pe nI x : ℕ) (hbpe : 1 ≤ bpe)
    (hx : x ∈ epochEmitSteps e bpe pe nI) :
    e * bpe ≤ x ∧ x < (e + 1) * bpe := by
  have hmul : (e + 1) * bpe = e * bpe + bpe := by ring
  rcases List.mem_append.mp hx with h | h
  · have := mem_evalEmitSteps e bpe nI x h
    omega
  · obtain ⟨i, hilt, hxv⟩ := mem_trainEmitSteps e bpe pe x h
    omega

theorem epochEmitSteps_pairwise_le (e bpe pe nI : ℕ) :
    List.Pairwise (· ≤ ·) (epochEmitSteps e bpe pe nI) := by
  rw [epochEmitSteps, List.pairwise_append]
  refine ⟨?_, ?_, ?_⟩
  · apply List.pairwise_of_forall_mem_list
    intro a ha b hb
    rw [mem_evalEmitSteps e bpe nI a ha, mem_evalEmitSteps e bpe nI b hb]
  · rw [trainEmitSteps, List.pairwise_flatMap]
    refine ⟨fun i _ => by simp, ?_⟩
    have hpw : ((List.range bpe).filter (fun i => (i + 1) % pe = 0)).Pairwise (· < ·) :=
      (List.pairwise_lt_range bpe).filter _
    refine hpw.imp ?_
    intro i j hij x hx y hy
    have hxv : x = i + e * bpe := by simpa using hx
    have hyv : y = j + e * bpe := by simpa using hy
    omega
  · intro a ha b hb
    rw [mem_evalEmitSteps e bpe nI a ha]
    obtain ⟨i, _, hbv⟩ := mem_trainEmitSteps e bpe pe b hb
    omega

/-- C3 (amended): the global steps of all summary emissions of a run are
non-decreasing in program order; within one `eval_step` (and between an
`eval_step` and a same-epoch `train_step` emission when `print_every = 1`)
consecutive emissions carry equal steps, so the sequence is monotone but
not strictly increasing. -/
theorem run_emit_steps_monotone (n_epochs bpe pe nI : ℕ) (hbpe : 1 ≤ bpe) :
    List.Pairwise (· ≤ ·) (runEmitSteps n_epochs bpe pe nI) := by
  rw [runEmitSteps, List.pairwise_flatMap]
  refine ⟨fun e _ => epochEmitSteps_pairwise_le e bpe pe nI, ?_⟩
  refine (List.pairwise_lt_range n_epochs).imp ?_
  intro e1 e2 he x hx y hy
  have hxb := mem_epochEmitSteps_bounds e1 bpe pe nI x hbpe hx
  have hyb := mem_epochEmitSteps_bounds e2 bpe pe nI y hbpe hy
  have hmul : (e1 + 1) * bpe ≤ e2 * bpe := Nat.mul_le_mul_right bpe (by omega)
  omega

/-- Witness for the amended C3: two epochs, three batches per epoch,
`print_every = 2`, one saved test image. -/
theorem run_emit_steps_monotone_witness :
    1 ≤ 3 ∧ List.Pairwise (· ≤ ·) (runEmitSteps 2 3 2 1) :=
  ⟨by omega, run_emit_steps_monotone 2 3 2 1 (by omega)⟩

/-- C4: every epoch writes exactly one checkpoint archive, always to the
same fixed path `train_dir/ckpt.npy` (so each write overwrites the previous
epoch's checkpoint), and every archive contains exactly two dense arrays,
keyed `links` (the voxel link array) and `data` (the raw coefficient
array). -/
theorem ckpt_one_fixed_path_two_arrays (train_dir : String)
    (gridAfter : ℕ → Grid) (n_epochs : ℕ) :
    (epochCkptWrites train_dir gridAfter n_epochs).length = n_epochs ∧
    (∀ e1 e2 : ℕ, ckpt_path train_dir e1 = ckpt_path train_dir e2) ∧
    (∀ w ∈ epochCkptWrites train_dir gridAfter n_epochs,
      w.1 = pathJoin train_dir "ckpt.npy" ∧
      w.2.map Prod.fst = ["links", "data"] ∧
      ∃ e, e < n_epochs ∧
        w.2 = [("links", NpArray.ints (gridAfter e).links),
               ("data", NpArray.floats (gridAfter e).data)]) := by
  refine ⟨by simp [epochCkptWrites], fun e1 e2 => rfl, ?_⟩
  intro w hw
  rcases List.mem_map.mp hw with ⟨e, he, rfl⟩
  exact ⟨rfl, rfl, e, List.mem_range.mp he, rfl⟩

/-- C7: on any archive in the checkpoint format (i.e. one produced by a
save), loading and then saving again reproduces the same archive, hence
the same link and coefficient arrays: the load-then-save round trip is the
identity on the stored arrays. -/
theorem ckpt_load_save_roundtrip (a : List (String × NpArray))
    (ha : ∃ c : CkptArrays, a = saveArrays c) :
    ∃ c : CkptArrays, loadCkpt a = some c ∧ saveArrays c = a := by
  obtain ⟨c, rfl⟩ := ha
  refine ⟨c, ?_, rfl⟩
  rfl

/-- Witness for C7 at a concrete archive. -/
theorem ckpt_load_save_roundtrip_witness :
    (∃ c : CkptArrays, saveArrays ⟨[7, 8], [[1, 2]]⟩ = saveArrays c) ∧
    ∃ c : CkptArrays, loadCkpt (saveArrays ⟨[7, 8], [[1, 2]]⟩) = some c ∧
      saveArrays c = saveArrays ⟨[7, 8], [[1, 2]]⟩ :=
  ⟨⟨⟨[7, 8], [[1, 2]]⟩, rfl⟩,
   ckpt_load_save_roundtrip (saveArrays ⟨[7, 8], [[1, 2]]⟩) ⟨⟨[7, 8], [[1, 2]]⟩, rfl⟩⟩

/-- C6: every PSNR value entering the script's evaluation or training
statistics is derived from its corresponding mean squared error by
`psnr = -10 * log10(mse)`. -/
theorem psnr_from_mse (log10 : ℚ → ℚ)
    (evalImages : List (List (List ℚ × List ℚ)))
    (trainBatches : List (List ℚ × List ℚ))
    (p : ℚ × ℚ) (hp : p ∈ runMsePsnrPairs log10 evalImages trainBatches) :
    p.2 = -10 * log10 p.1 := by
  rcases List.mem_append.mp hp with h | h
  · rcases List.mem_map.mp h with ⟨img, _, rfl⟩
    rfl
  · rcases List.mem_map.mp h with ⟨b, _, rfl⟩
    rfl

/-- Witness for C6: one test image with ground truth `[1]` and prediction
`[0]` (so `mse = 1`), no training batches, and `log10` instantiated with
the identity for concreteness. -/
theorem psnr_from_mse_witness :
    ((1 : ℚ), (-10 : ℚ)) ∈ runMsePsnrPairs id [[([1], [0])]] [] ∧
    ((1 : ℚ), (-10 : ℚ)).2 = -10 * id ((1 : ℚ), (-10 : ℚ)).1 :=
  ⟨by norm_num [runMsePsnrPairs, evalImageMsePsnr, tensorMean, sqErr],
   psnr_from_mse id [[([1], [0])]] [] ((1 : ℚ), (-10 : ℚ))
     (by norm_num [runMsePsnrPairs, evalImageMsePsnr, tensorMean, sqErr])⟩

theorem except_bind_ok {α β : Type} (a : α) (f : α → Except String β) :
    (Except.ok a >>= f : Except String β) = f a := rfl

theorem except_bind_error {α β : Type} (e : String) (f : α → Except String β) :
    ((Except.error e : Except String α) >>= f) = Except.error e := rfl

theorem forEachM_error {α β : Type} (f : α → Except String β) (e : String) :
    ∀ (l : List α) (a : α), a ∈ l → f a = Except.error e →
      ∃ e', forEachM f l = Except.error e' := by
  intro l
  induction l with
  | nil => intro a ha _; simp at ha
  | cons hd tl ih =>
    intro a ha herr
    cases hf : f hd with
    | error e2 => exact ⟨e2, by simp only [forEachM]; rw [hf]; rfl⟩
    | ok b =>
      rcases List.mem_cons.mp ha with rfl | hmem
      · simp [herr] at hf
      · obtain ⟨e', he'⟩ := ih a hmem herr
        exact ⟨e', by simp only [forEachM]; rw [hf, except_bind_ok, he']; rfl⟩

/-- C5: dataset-loading failures terminate the run. A missing/invalid
manifest makes `Dataset.__init__` fail; a frame lacking `file_path` or
`transform_matrix`, or a missing image file, makes its frame load fail,
which makes the frame loop and `Dataset.__init__` fail; and a failing
`Dataset.__init__` (for either split) makes the whole script fail with the
same error — nothing catches, retries or recovers on any path. -/
theorem loader_failure_propagates (tan sqrt : ℚ → ℚ) (env : Env)
    (root split data_dir : String) (rest : Dataset → Dataset → Except String Unit)
    (frame j : J) (frames : List J) (e : String) :
    (env.readJson (pathJoin root ("transforms_" ++ split ++ ".json")) = Except.error e →
      datasetInit tan sqrt env root split (1 / 1.5) = Except.error e) ∧
    (getItem frame "file_path" = Except.error e →
      loadFrame env (pathJoin root split) frame = Except.error e) ∧
    (∀ fp : String, getItem frame "file_path" = Except.ok (J.str fp) →
      getItem frame "transform_matrix" = Except.error e →
      loadFrame env (pathJoin root split) frame = Except.error e) ∧
    (∀ (fp : String) (tm : List (List ℚ)),
      getItem frame "file_path" = Except.ok (J.str fp) →
      getItem frame "transform_matrix" >>= tensorOfJson = Except.ok tm →
      env.readImage (pathJoin (pathJoin root split) (basename fp ++ ".png")) =
        Except.error e →
      loadFrame env (pathJoin root split) frame = Except.error e) ∧
    (frame ∈ frames → loadFrame env (pathJoin root split) frame = Except.error e →
      ∃ e', forEachM (loadFrame env (pathJoin root split)) frames = Except.error e') ∧
    (env.readJson (pathJoin root ("transforms_" ++ split ++ ".json")) = Except.ok j →
      getItem j "frames" >>= asArr = Except.ok frames →
      forEachM (loadFrame env (pathJoin root split)) frames = Except.error e →
      datasetInit tan sqrt env root split (1 / 1.5) = Except.error e) ∧
    (datasetInit tan sqrt env data_dir "train" (1 / 1.5) = Except.error e →
      runScript tan sqrt env data_dir rest = Except.error e) ∧
    (∀ d : Dataset, datasetInit tan sqrt env data_dir "train" (1 / 1.5) = Except.ok d →
      datasetInit tan sqrt env data_dir "test" (1 / 1.5) = Except.error e →
      runScript tan sqrt env data_dir rest = Except.error e) := by
  refine ⟨?_, ?_, ?_, ?_, ?_, ?_, ?_, ?_⟩
  · intro h
    simp only [datasetInit]
    rw [h]
    rfl
  · intro h
    simp only [loadFrame]
    rw [h]
    rfl
  · intro fp h1 h2
    simp only [loadFrame, h1, except_bind_ok, asStr, h2, except_bind_error]
  · intro fp tm h1 h2 h3
    simp only [loadFrame, h1, except_bind_ok, asStr, h2, h3, except_bind_error]
  · intro hmem herr
    exact forEachM_error _ e frames frame hmem herr
  · intro hj hf hfe
    simp only [datasetInit, hj, except_bind_ok, hf, hfe, except_bind_error]
  · intro h
    simp only [runScript, h, except_bind_error]
  · intro d h1 h2
    simp only [runScript, h1, except_bind_ok, h2, except_bind_error]

/-- Witness for C5: concrete environments with a missing manifest, a frame
lacking each field, a missing image file, and a run whose test manifest is
missing after a loadable train split. -/
theorem loader_failure_propagates_witness :
    (envNoManifest.readJson (pathJoin "d" ("transforms_" ++ "train" ++ ".json")) =
        Except.error "FileNotFoundError: transforms json" ∧
      datasetInit id id envNoManifest "d" "train" (1 / 1.5) =
        Except.error "FileNotFoundError: transforms json") ∧
    (getItem frameNoFields "file_path" = Except.error "KeyError: file_path" ∧
      loadFrame envNoImage (pathJoin "d" "train") frameNoFields =
        Except.error "KeyError: file_path") ∧
    (getItem frameNoMatrix "transform_matrix" =
        Except.error "KeyError: transform_matrix" ∧
      loadFrame envNoImage (pathJoin "d" "train") frameNoMatrix =
        Except.error "KeyError: transform_matrix") ∧
    (envNoImage.readImage
        (pathJoin (pathJoin "d" "train") (basename "./train/r_0" ++ ".png")) =
        Except.error "FileNotFoundError: image" ∧
      loadFrame envNoImage (pathJoin "d" "train") exFrame =
        Except.error "FileNotFoundError: image") ∧
    (∃ e', forEachM (loadFrame envFrameNoFields (pathJoin "d" "train")) [frameNoFields] =
        Except.error e') ∧
    (datasetInit id id envFrameNoFields "d" "train" (1 / 1.5) =
        Except.error "KeyError: file_path") ∧
    (runScript id id envNoManifest "d" restNoOp =
        Except.error "FileNotFoundError: transforms json") ∧
    (runScript id id envTestMissing "d" restNoOp =
        Except.error "FileNotFoundError: transforms json") := by
  refine ⟨⟨rfl, ?_⟩, ⟨rfl, ?_⟩, ⟨rfl, ?_⟩, ⟨rfl, ?_⟩, ?_, ?_, ?_, ?_⟩
  · exact (loader_failure_propagates id id envNoManifest "d" "train" "d" restNoOp
      J.null J.null [] "FileNotFoundError: transforms json").1 rfl
  · exact (loader_failure_propagates id id envNoImage "d" "train" "d" restNoOp
      frameNoFields J.null [] "KeyError: file_path").2.1 rfl
  · exact (loader_failure_propagates id id envNoImage "d" "train" "d" restNoOp
      frameNoMatrix J.null [] "KeyError: transform_matrix").2.2.1 "./train/r_0" rfl rfl
  · exact (loader_failure_propagates id id envNoImage "d" "train" "d" restNoOp
      exFrame J.null [] "FileNotFoundError: image").2.2.2.1 "./train/r_0" [[1]]
      rfl rfl rfl
  · exact (loader_failure_propagates id id envFrameNoFields "d" "train" "d" restNoOp
      frameNoFields J.null [frameNoFields] "KeyError: file_path").2.2.2.2.1
      (List.mem_singleton.mpr rfl) rfl
  · exact (loader_failure_propagates id id envFrameNoFields "d" "train" "d" restNoOp
      J.null (J.obj [("frames", J.arr [frameNoFields])]) [frameNoFields]
      "KeyError: file_path").2.2.2.2.2.1 rfl rfl rfl
  · exact (loader_failure_propagates id id envNoManifest "d" "train" "d" restNoOp
      J.null J.null [] "FileNotFoundError: transforms json").2.2.2.2.2.2.1 rfl
  · exact (loader_failure_propagates id id envTestMissing "d" "train" "d" restNoOp
      J.null J.null [] "FileNotFoundError: transforms json").2.2.2.2.2.2.2 _ rfl rfl

theorem evalImageIter_frame
    (render : Grid → List (List ℚ) → List (List ℚ) → List (List ℚ))
    (log10 : ℚ → ℚ) (ebs gstep : ℕ) (acc : ProgState × ℚ × ℚ × ℕ) (img_id : ℕ) :
    ((evalImageIter render log10 ebs gstep acc img_id).1.grid = acc.1.grid ∧
     (evalImageIter render log10 ebs gstep acc img_id).1.dsetRays = acc.1.dsetRays ∧
     (evalImageIter render log10 ebs gstep acc img_id).1.dsetTestRays = acc.1.dsetTestRays ∧
     (evalImageIter render log10 ebs gstep acc img_id).1.testH = acc.1.testH ∧
     (evalImageIter render log10 ebs gstep acc img_id).1.testW = acc.1.testW ∧
     (evalImageIter render log10 ebs gstep acc img_id).1.epoch_size = acc.1.epoch_size) ∧
    ∃ new, (evalImageIter render log10 ebs gstep acc img_id).1.log = acc.1.log ++ new := by
  simp only [evalImageIter]
  split_ifs with h
  · exact ⟨⟨rfl, rfl, rfl, rfl, rfl, rfl⟩, _, rfl⟩
  · exact ⟨⟨rfl, rfl, rfl, rfl, rfl, rfl⟩, [], (List.append_nil _).symm⟩

theorem foldl_evalImageIter_frame
    (render : Grid → List (List ℚ) → List (List ℚ) → List (List ℚ))
    (log10 : ℚ → ℚ) (ebs gstep : ℕ) :
    ∀ (ids : List ℕ) (acc : ProgState × ℚ × ℚ × ℕ),
      ((ids.foldl (evalImageIter render log10 ebs gstep) acc).1.grid = acc.1.grid ∧
       (ids.foldl (evalImageIter render log10 ebs gstep) acc).1.dsetRays = acc.1.dsetRays ∧
       (ids.foldl (evalImageIter render log10 ebs gstep) acc).1.dsetTestRays =
         acc.1.dsetTestRays ∧
       (ids.foldl (evalImageIter render log10 ebs gstep) acc).1.testH = acc.1.testH ∧
       (ids.foldl (evalImageIter render log10 ebs gstep) acc).1.testW = acc.1.testW ∧
       (ids.foldl (evalImageIter render log10 ebs gstep) acc).1.epoch_size =
         acc.1.epoch_size) ∧
      ∃ new, (ids.foldl (evalImageIter render log10 ebs gstep) acc).1.log =
        acc.1.log ++ new := by
  intro ids
  induction ids with
  | nil => exact fun acc => ⟨⟨rfl, rfl, rfl, rfl, rfl, rfl⟩, [], (List.append_nil _).symm⟩
  | cons hd tl ih =>
    intro acc
    obtain ⟨⟨g1, r1, t1, th1, tw1, es1⟩, n1, l1⟩ :=
      evalImageIter_frame render log10 ebs gstep acc hd
    obtain ⟨⟨g2, r2, t2, th2, tw2, es2⟩, n2, l2⟩ :=
      ih (evalImageIter render log10 ebs gstep acc hd)
    refine ⟨⟨?_, ?_, ?_, ?_, ?_, ?_⟩, n1 ++ n2, ?_⟩
    · rw [List.foldl_cons]; exact g2.trans g1
    · rw [List.foldl_cons]; exact r2.trans r1
    · rw [List.foldl_cons]; exact t2.trans t1
    · rw [List.foldl_cons]; exact th2.trans th1
    · rw [List.foldl_cons]; exact tw2.trans tw1
    · rw [List.foldl_cons]; exact es2.trans es1
    · rw [List.foldl_cons, l2, l1, List.append_assoc]

/-- C10: `eval_step` never modifies the training state: the grid (its
coefficient and link arrays and its gradient), the training dataset's rays,
the test dataset's rays and shape, and the epoch-size bookkeeping are all
unchanged by a call; the call only appends emissions to the summary log. -/
theorem eval_step_no_training_state_change
    (render : Grid → List (List ℚ) → List (List ℚ) → List (List ℚ))
    (log10 : ℚ → ℚ) (eval_batch_size epoch_id bpe : ℕ) (s : ProgState) :
    (eval_step render log10 eval_batch_size epoch_id bpe s).grid = s.grid ∧
    (eval_step render log10 eval_batch_size epoch_id bpe s).dsetRays = s.dsetRays ∧
    (eval_step render log10 eval_batch_size epoch_id bpe s).dsetTestRays = s.dsetTestRays ∧
    (eval_step render log10 eval_batch_size epoch_id bpe s).testH = s.testH ∧
    (eval_step render log10 eval_batch_size epoch_id bpe s).testW = s.testW ∧
    (eval_step render log10 eval_batch_size epoch_id bpe s).epoch_size = s.epoch_size ∧
    ∃ newEmissions,
      (eval_step render log10 eval_batch_size epoch_id bpe s).log = s.log ++ newEmissions := by
  obtain ⟨⟨hg, hr, ht, hh, hw, he⟩, new, hl⟩ :=
    foldl_evalImageIter_frame render log10 eval_batch_size (epoch_id * bpe)
      (pythonRange 0 s.dsetTestRays.origins.length (s.dsetTestRays.origins.length / 5))
      (s, 0, 0, 0)
  refine ⟨hg, hr, ht, hh, hw, he, ?_⟩
  exact ⟨_, by simp only [eval_step]; rw [hl, List.append_assoc]⟩

end Svox2Opt
